import Mathlib

/-!
Verification of the background service worker of the "Chat With Cat"
browser extension (`js/background.js`).

The script's core logic is embedded shallowly:

* `retryWithBackoff` — the exponential-backoff retry wrapper.  The JS
  function repeatedly calls a zero-argument async closure; here the
  closure is modelled as a function from the invocation index to an
  `Except` outcome, and the embedding additionally returns the number of
  invocations performed and the list of back-off sleeps, so that timing
  and attempt-count properties can be stated.
* the response cache — `responseCache` is a JS `Map` from string keys to
  `{data, timestamp}` records; it is modelled as an association list with
  `Map.get`/`Map.set` semantics (`mapGet`/`mapSet`), and the freshness
  test inlined in `fetchAIResponse` is `cacheLookup`.
* `debounce` — the JS debounce keeps one shared timer; each call clears
  the pending timer and schedules the underlying function `wait` ms
  later with the newest arguments.  `debounceRun` is the timer semantics
  over a time-stamped call sequence: it returns the executions that
  actually fire, each with its firing time and arguments.
* `sendResponseToContent` — the bounded delivery-retry loop toward the
  content script.  The environment (does the tab exist, does the message
  send succeed) is a pair of oracles indexed by the attempt number; the
  embedding returns a trace of sends, waits, and whether the loop gave up.
* `fetchAIResponseCore` — the body of the debounced `fetchAIResponse`:
  config validation, cache check, retry-wrapped adapter call, cache
  store, and error formatting.  The provider adapter (a network call) is
  a parameter, like the closure handed to `retryWithBackoff`.
-/

/-- `CACHE_EXPIRY`: 30 minutes in milliseconds (`background.js` line 15). -/
def CACHE_EXPIRY : Nat := 30 * 60 * 1000

/-- `DEBOUNCE_DELAY`: milliseconds to wait before making the API call
(`background.js` line 18). -/
def DEBOUNCE_DELAY : Nat := 300

/-- `MAX_RETRIES`: maximum number of retries for failed API calls
(`background.js` line 19). -/
def MAX_RETRIES : Nat := 3

/-- `INITIAL_RETRY_DELAY`: milliseconds to wait before the first retry
(`background.js` line 20). -/
def INITIAL_RETRY_DELAY : Nat := 1000

/-- A `{data, timestamp}` record stored in `responseCache`
(`background.js` lines 342-345). -/
structure CacheEntry where
  data : String
  timestamp : Nat
deriving DecidableEq

/-- The `responseCache` JS `Map`, as an association list (first binding
for a key wins, `mapSet` overwrites in place). -/
abbrev Cache := List (String × CacheEntry)

/-- JS `Map.prototype.get`: the value bound to `k`, if any. -/
def mapGet {β : Type} : List (String × β) → String → Option β
  | [], _ => none
  | (k2, v) :: rest, k => if k2 = k then some v else mapGet rest k

/-- JS `Map.prototype.set`: rebinds `k` in place if present, otherwise
appends the new binding. -/
def mapSet {β : Type} : List (String × β) → String → β → List (String × β)
  | [], k, v => [(k, v)]
  | (k2, v2) :: rest, k, v =>
    if k2 = k then (k, v) :: rest else (k2, v2) :: mapSet rest k v

/-- The freshness-gated cache read inlined in `fetchAIResponse`
(`background.js` lines 325-330): a stored entry counts only while
`now - timestamp < CACHE_EXPIRY`. -/
def cacheLookup (c : Cache) (k : String) (now : Nat) : Option String :=
  match mapGet c k with
  | some e => if now - e.timestamp < CACHE_EXPIRY then some e.data else none
  | none => none

/-- The cache key `` `${text}-${activeProvider}-${config.selectedModel}` ``
(`background.js` line 324). -/
def cacheKey (text activeProvider selectedModel : String) : String :=
  text ++ "-" ++ activeProvider ++ "-" ++ selectedModel

/-- Recursive core of `retryWithBackoff` (`background.js` lines 56-68).
`fn i` is the outcome of the `i`-th invocation of the wrapped closure
(the JS `retries` counter equals the invocation index).  `remaining` is
`maxRetries - retries`, so `remaining = 0` is exactly the JS guard
`retries >= maxRetries`.  Returns the final outcome, the number of
invocations performed, and the list of back-off sleeps
`initialDelay * 2 ^ retries` in order. -/
def retryGo {E A : Type} (fn : Nat → Except E A) (initialDelay : Nat) :
    Nat → Nat → Except E A × Nat × List Nat
  | remaining, retries =>
    match fn retries with
    | Except.ok a => (Except.ok a, retries + 1, [])
    | Except.error e =>
      match remaining with
      | 0 => (Except.error e, retries + 1, [])
      | r + 1 =>
        let rec_result := retryGo fn initialDelay r (retries + 1)
        (rec_result.1, rec_result.2.1, initialDelay * 2 ^ retries :: rec_result.2.2)

/-- `retryWithBackoff(fn, maxRetries, initialDelay)`
(`background.js` lines 56-68), starting from `retries = 0`. -/
def retryWithBackoff {E A : Type} (fn : Nat → Except E A)
    (maxRetries initialDelay : Nat) : Except E A × Nat × List Nat :=
  retryGo fn initialDelay maxRetries 0

/-- Timer semantics of `debounce(func, wait)` (`background.js` lines
37-47) over a list of calls `(time, args)` in arrival order: each call
clears the single shared timer and schedules `func` at `time + wait`
with its own arguments, so a pending execution survives only if the
next call arrives at or after its firing time.  Returns the executions
that fire, as `(firing time, args)` pairs. -/
def debounceRun {α : Type} (wait : Nat) : List (Nat × α) → List (Nat × α)
  | [] => []
  | [(t, a)] => [(t + wait, a)]
  | (t, a) :: (t2, a2) :: rest =>
    if t2 < t + wait then debounceRun wait ((t2, a2) :: rest)
    else (t + wait, a) :: debounceRun wait ((t2, a2) :: rest)

/-- Trace of one `sendResponseToContent` activation: how many
`chrome.tabs.sendMessage` calls happened, which waits were slept between
attempts, and whether the "Failed to send message after multiple
attempts" give-up point was reached. -/
structure DeliveryTrace where
  sends : Nat
  waits : List ℚ
  gaveUp : Bool
deriving DecidableEq

/-- `sendResponseToContent(responseText, tabId, retries, delay)`
(`background.js` lines 108-137).  `tabExists n` / `sendOk n` tell
whether, at the `n`-th attempt, `chrome.tabs.get` finds the tab and the
message send succeeds.  If the tab is gone the function returns at once;
on a failed send with retries left it sleeps `delay`, then recurses with
`retries - 1` and `delay * 1.5`; with no retries left it gives up.
Delays are rationals because JS multiplies by 1.5. -/
def sendResponseToContent (tabExists sendOk : Nat → Bool) :
    Nat → ℚ → Nat → DeliveryTrace
  | 0, _, step =>
    if tabExists step = false then ⟨0, [], false⟩
    else if sendOk step = true then ⟨1, [], false⟩
    else ⟨1, [], true⟩
  | r + 1, delay, step =>
    if tabExists step = false then ⟨0, [], false⟩
    else if sendOk step = true then ⟨1, [], false⟩
    else
      let t := sendResponseToContent tabExists sendOk r (delay * (3 / 2)) (step + 1)
      ⟨1 + t.sends, delay :: t.waits, t.gaveUp⟩

/-- One provider's entry of `apiConfig` in `chrome.storage.local`
(`background.js` lines 312-321): the selected model and the API key.
The JS truthiness checks `!config.selectedModel` / `!config.apiKey`
fail exactly on the empty string. -/
structure ProviderConfig where
  selectedModel : String
  apiKey : String
deriving DecidableEq

/-- Error message thrown when `!apiConfig || !activeProvider ||
!apiConfig[activeProvider]` (`background.js` line 309). -/
def notConfiguredMsg : String :=
  "AI provider not configured. Please set up the extension first."

/-- Error message thrown when `!config.selectedModel`
(`background.js` line 316). -/
def noModelMsg : String :=
  "No model selected. Please configure a model in the extension settings."

/-- Error message thrown when `!config.apiKey` (`background.js` line 320). -/
def noKeyMsg : String :=
  "API key not found. Please set up your API key in the extension settings."

/-- Outcome of one (post-debounce) run of `fetchAIResponse`: the string
delivered via `sendResponseToContent`, the cache afterwards, how many
times the provider adapter (hence the network) was invoked, and the
error caught by the surrounding `try/catch`, if any. -/
structure DispatchResult where
  sent : String
  cache : Cache
  adapterCalls : Nat
  caught : Option String
deriving DecidableEq

/-- Body of the debounced `fetchAIResponse` (`background.js` lines
302-354): validate `apiConfig` / `activeProvider` / model / key, check
the cache, otherwise run the provider adapter under `retryWithBackoff`
and cache a success.  `apiConfig` and `activeProvider` are the values
read from `chrome.storage.local` (absent = `none`; the empty string is
also falsy for `activeProvider`); `adapter i` is the outcome of the
`i`-th invocation of `apiProviders[activeProvider].fetchResponse(text,
config)`; `now` is `Date.now()`.  Every thrown error is caught and
delivered as `"Error: " + error.message`. -/
def fetchAIResponseCore (apiConfig : Option (List (String × ProviderConfig)))
    (activeProvider : Option String) (cache : Cache) (now : Nat)
    (text : String) (adapter : Nat → Except String String) : DispatchResult :=
  match apiConfig, activeProvider with
  | some cfg, some ap =>
    if ap = "" then ⟨"Error: " ++ notConfiguredMsg, cache, 0, some notConfiguredMsg⟩
    else
      match mapGet cfg ap with
      | none => ⟨"Error: " ++ notConfiguredMsg, cache, 0, some notConfiguredMsg⟩
      | some config =>
        if config.selectedModel = "" then
          ⟨"Error: " ++ noModelMsg, cache, 0, some noModelMsg⟩
        else if config.apiKey = "" then
          ⟨"Error: " ++ noKeyMsg, cache, 0, some noKeyMsg⟩
        else
          let key := cacheKey text ap config.selectedModel
          match cacheLookup cache key now with
          | some cached => ⟨cached, cache, 0, none⟩
          | none =>
            match retryWithBackoff adapter MAX_RETRIES INITIAL_RETRY_DELAY with
            | (Except.ok responseText, attempts, _) =>
              ⟨responseText, mapSet cache key ⟨responseText, now⟩, attempts, none⟩
            | (Except.error msg, attempts, _) =>
              ⟨"Error: " ++ msg, cache, attempts, some msg⟩
  | _, _ => ⟨"Error: " ++ notConfiguredMsg, cache, 0, some notConfiguredMsg⟩

/-! ## Helper lemmas -/

theorem mapGet_mapSet_self {β : Type} (c : List (String × β)) (k : String) (v : β) :
    mapGet (mapSet c k v) k = some v := by
  induction c with
  | nil => simp [mapGet, mapSet]
  | cons hd tl ih =>
    obtain ⟨k2, v2⟩ := hd
    by_cases h : k2 = k <;> simp [mapGet, mapSet, h, ih]

theorem mapGet_mapSet_ne {β : Type} (c : List (String × β)) (k1 k2 : String) (v : β)
    (h : k1 ≠ k2) : mapGet (mapSet c k1 v) k2 = mapGet c k2 := by
  induction c with
  | nil => simp [mapGet, mapSet, h]
  | cons hd tl ih =>
    obtain ⟨k3, v3⟩ := hd
    by_cases h3 : k3 = k1
    · subst h3
      simp [mapGet, mapSet, h]
    · simp [mapGet, mapSet, h3, ih]

theorem string_append_left_cancel {s a b : String} (h : s ++ a = s ++ b) : a = b := by
  have hd : s.data ++ a.data = s.data ++ b.data := by
    have hc := congrArg String.data h
    simpa [String.data_append] using hc
  exact String.ext (List.append_cancel_left hd)

theorem cacheKey_ne_of_model_ne {text p m1 m2 : String} (h : m1 ≠ m2) :
    cacheKey text p m1 ≠ cacheKey text p m2 := by
  intro he
  exact h (string_append_left_cancel he)

/-! ## Claims -/

/-- C1: for every operation wrapped by `retryWithBackoff` with the
production parameters (`MAX_RETRIES = 3`, `INITIAL_RETRY_DELAY = 1000`):
an always-failing operation is invoked exactly 4 times with sleeps of
1000, 2000, 4000 ms between attempts and the error of the last attempt
is propagated unchanged; an operation failing twice then succeeding is
retried exactly twice (3 invocations, sleeps 1000, 2000 ms) and its
success value is returned; an operation succeeding at once is invoked
once with no sleeps. -/
theorem retry_controller_behavior {E A : Type}
    (fnFail fnTwice fnOk : Nat → Except E A) (e : Nat → E) (e0 e1 : E) (v v0 : A)
    (hFail : ∀ i, fnFail i = Except.error (e i))
    (h0 : fnTwice 0 = Except.error e0) (h1 : fnTwice 1 = Except.error e1)
    (h2 : fnTwice 2 = Except.ok v) (hOk : fnOk 0 = Except.ok v0) :
    retryWithBackoff fnFail MAX_RETRIES INITIAL_RETRY_DELAY
      = (Except.error (e 3), 4, [1000, 2000, 4000])
    ∧ retryWithBackoff fnTwice MAX_RETRIES INITIAL_RETRY_DELAY
      = (Except.ok v, 3, [1000, 2000])
    ∧ retryWithBackoff fnOk MAX_RETRIES INITIAL_RETRY_DELAY
      = (Except.ok v0, 1, []) := by
  refine ⟨?_, ?_, ?_⟩ <;>
    simp [retryWithBackoff, retryGo, MAX_RETRIES, INITIAL_RETRY_DELAY,
      hFail, h0, h1, h2, hOk]

/-- Witness for C1 at concrete operations. -/
theorem retry_controller_behavior_witness :
    retryWithBackoff (fun i => (Except.error i : Except Nat Nat))
        MAX_RETRIES INITIAL_RETRY_DELAY = (Except.error 3, 4, [1000, 2000, 4000])
    ∧ retryWithBackoff (fun i => if i < 2 then Except.error i else Except.ok 99)
        MAX_RETRIES INITIAL_RETRY_DELAY = (Except.ok 99, 3, [1000, 2000])
    ∧ retryWithBackoff (fun _ => (Except.ok 7 : Except Nat Nat))
        MAX_RETRIES INITIAL_RETRY_DELAY = (Except.ok 7, 1, []) :=
  retry_controller_behavior _ _ _ (fun i => i) 0 1 99 7
    (fun _ => rfl) rfl rfl rfl rfl

/-- C2: a `get` within 30 minutes of a `put` returns the stored value; a
`get` once the entry's age reaches the 30-minute `CACHE_EXPIRY` returns
absent even though the entry is still physically in the map; and `put`
unconditionally overwrites any existing entry for the key, resetting its
timestamp — all regardless of the prior cache contents. -/
theorem cache_ttl_behavior (c : Cache) (k v : String) (t now now2 : Nat)
    (hfresh : now - t < CACHE_EXPIRY) (hexp : t + CACHE_EXPIRY ≤ now2) :
    cacheLookup (mapSet c k ⟨v, t⟩) k now = some v
    ∧ cacheLookup (mapSet c k ⟨v, t⟩) k now2 = none
    ∧ mapGet (mapSet c k ⟨v, t⟩) k = some ⟨v, t⟩ := by
  have hg := mapGet_mapSet_self c k (⟨v, t⟩ : CacheEntry)
  refine ⟨?_, ?_, hg⟩
  · simp [cacheLookup, hg, hfresh]
  · have hstale : ¬ (now2 - t < CACHE_EXPIRY) := by omega
    simp [cacheLookup, hg, hstale]

/-- Witness for C2: overwrite of an existing entry, a fresh hit one
millisecond later, and a miss exactly at the TTL boundary. -/
theorem cache_ttl_behavior_witness :
    cacheLookup (mapSet [("k", CacheEntry.mk "old" 0)] "k" (CacheEntry.mk "new" 5)) "k" 6 = some "new"
    ∧ cacheLookup (mapSet [("k", CacheEntry.mk "old" 0)] "k" (CacheEntry.mk "new" 5)) "k" (5 + CACHE_EXPIRY) = none
    ∧ mapGet (mapSet [("k", CacheEntry.mk "old" 0)] "k" (CacheEntry.mk "new" 5)) "k" = some (CacheEntry.mk "new" 5) :=
  cache_ttl_behavior [("k", CacheEntry.mk "old" 0)] "k" "new" 5 6 (5 + CACHE_EXPIRY)
    (by decide) (by omega)

theorem debounce_burst_helper {α : Type} (wait : Nat) (calls : List (Nat × α)) :
    ∀ p : Nat × α, calls.getLast? = some p →
      List.Chain' (fun q r : Nat × α => r.1 < q.1 + wait) calls →
      debounceRun wait calls = [(p.1 + wait, p.2)] := by
  induction calls with
  | nil => intro p hp _hc; simp at hp
  | cons x xs ih =>
    intro p hp hchain
    obtain ⟨t, a⟩ := x
    cases xs with
    | nil =>
      simp at hp
      simp [debounceRun, ← hp]
    | cons y ys =>
      obtain ⟨t2, a2⟩ := y
      rw [List.chain'_cons] at hchain
      have hlt : t2 < t + wait := hchain.1
      have heq := ih p (by simpa using hp) hchain.2
      simp [debounceRun, hlt, heq]

/-- C3: for every sequence of calls to the debounced dispatch in which
each call arrives less than `DEBOUNCE_DELAY` (300 ms) after the
previous one, exactly one underlying dispatch executes, with the
`(queryText, tabId)` arguments of the last call; the single shared
timer means a later call cancels the pending execution of an earlier
one even when their arguments differ. -/
theorem debounce_collapses_burst (calls : List (Nat × String × Nat))
    (p : Nat × String × Nat) (hlast : calls.getLast? = some p)
    (hburst : List.Chain' (fun q r : Nat × String × Nat => r.1 < q.1 + DEBOUNCE_DELAY) calls) :
    debounceRun DEBOUNCE_DELAY calls = [(p.1 + DEBOUNCE_DELAY, p.2)] :=
  debounce_burst_helper DEBOUNCE_DELAY calls p hlast hburst

/-- Witness for C3: three calls 100 and 150 ms apart, with different
query texts and different destination tabs, fire once at 550 ms with
the last call's arguments. -/
theorem debounce_collapses_burst_witness :
    debounceRun DEBOUNCE_DELAY [(0, "first", 1), (100, "second", 2), (250, "third", 3)]
      = [(550, "third", 3)] :=
  debounce_collapses_burst [(0, "first", 1), (100, "second", 2), (250, "third", 3)]
    (250, "third", 3) rfl
    (by rw [List.chain'_cons, List.chain'_cons]
        exact ⟨by decide, by decide, List.chain'_singleton _⟩)

/-- C4: whenever the configuration store holds no `apiConfig`, no (or an
empty) `activeProvider` id, no config entry for the active provider, an
empty `selectedModel`, or an empty `apiKey`, the dispatch invokes the
provider adapter zero times (so no network call is made) and delivers
through the normal delivery path a user-visible string
`"Error: " ++ m` derived from the configuration error message `m`. -/
theorem config_gate_no_network (apiConfig : Option (List (String × ProviderConfig)))
    (activeProvider : Option String) (cache : Cache) (now : Nat) (text : String)
    (adapter : Nat → Except String String)
    (hbad : apiConfig = none ∨ activeProvider = none ∨ activeProvider = some ""
      ∨ (∃ cfg ap, apiConfig = some cfg ∧ activeProvider = some ap ∧ mapGet cfg ap = none)
      ∨ (∃ cfg ap config, apiConfig = some cfg ∧ activeProvider = some ap
          ∧ mapGet cfg ap = some config
          ∧ (config.selectedModel = "" ∨ config.apiKey = ""))) :
    (fetchAIResponseCore apiConfig activeProvider cache now text adapter).adapterCalls = 0
    ∧ ∃ m, (fetchAIResponseCore apiConfig activeProvider cache now text adapter).caught = some m
        ∧ (fetchAIResponseCore apiConfig activeProvider cache now text adapter).sent
            = "Error: " ++ m := by
  rcases hbad with h | h | h | ⟨cfg, ap, h1, h2, h3⟩ | ⟨cfg, ap, config, h1, h2, h3, h4⟩
  · subst h
    exact ⟨rfl, notConfiguredMsg, rfl, rfl⟩
  · subst h
    cases apiConfig with
    | none => exact ⟨rfl, notConfiguredMsg, rfl, rfl⟩
    | some cfg => exact ⟨rfl, notConfiguredMsg, rfl, rfl⟩
  · subst h
    cases apiConfig with
    | none => exact ⟨rfl, notConfiguredMsg, rfl, rfl⟩
    | some cfg =>
      refine ⟨?_, notConfiguredMsg, ?_, ?_⟩ <;> simp [fetchAIResponseCore]
  · subst h1; subst h2
    by_cases hap : ap = ""
    · refine ⟨?_, notConfiguredMsg, ?_, ?_⟩ <;> simp [fetchAIResponseCore, hap]
    · refine ⟨?_, notConfiguredMsg, ?_, ?_⟩ <;> simp [fetchAIResponseCore, hap, h3]
  · subst h1; subst h2
    by_cases hap : ap = ""
    · refine ⟨?_, notConfiguredMsg, ?_, ?_⟩ <;> simp [fetchAIResponseCore, hap]
    · by_cases hm : config.selectedModel = ""
      · refine ⟨?_, noModelMsg, ?_, ?_⟩ <;> simp [fetchAIResponseCore, hap, h3, hm]
      · rcases h4 with h4 | h4
        · exact absurd h4 hm
        · refine ⟨?_, noKeyMsg, ?_, ?_⟩ <;> simp [fetchAIResponseCore, hap, h3, hm, h4]

/-- Witness for C4: a store with a provider entry whose model is set but
whose API key is empty. -/
theorem config_gate_no_network_witness :
    (fetchAIResponseCore (some [("groq", ProviderConfig.mk "m1" "")]) (some "groq")
        [] 0 "hello" (fun _ => Except.ok "unreachable")).adapterCalls = 0
    ∧ ∃ m, (fetchAIResponseCore (some [("groq", ProviderConfig.mk "m1" "")]) (some "groq")
        [] 0 "hello" (fun _ => Except.ok "unreachable")).caught = some m
      ∧ (fetchAIResponseCore (some [("groq", ProviderConfig.mk "m1" "")]) (some "groq")
        [] 0 "hello" (fun _ => Except.ok "unreachable")).sent = "Error: " ++ m :=
  config_gate_no_network (some [("groq", ProviderConfig.mk "m1" "")]) (some "groq")
    [] 0 "hello" (fun _ => Except.ok "unreachable")
    (Or.inr (Or.inr (Or.inr (Or.inr
      ⟨[("groq", ProviderConfig.mk "m1" "")], "groq", ProviderConfig.mk "m1" "",
        rfl, rfl, rfl, Or.inr rfl⟩))))

/-- C5: with a valid active provider, model and API key, the first
dispatch of a query text (a cache miss) invokes the adapter exactly
once, delivers its answer, and stores it in the cache; a second
dispatch of the same text under the same provider and model within
`CACHE_EXPIRY` delivers the cached answer unchanged with zero adapter
invocations, whatever the adapter would do the second time. -/
theorem dispatch_cache_roundtrip (cfg : List (String × ProviderConfig)) (ap : String)
    (config : ProviderConfig) (cache : Cache) (now now2 : Nat) (text ans : String)
    (adapter adapter2 : Nat → Except String String)
    (hap : ap ≠ "") (hcfg : mapGet cfg ap = some config)
    (hm : config.selectedModel ≠ "") (hk : config.apiKey ≠ "")
    (hmiss : cacheLookup cache (cacheKey text ap config.selectedModel) now = none)
    (hok : adapter 0 = Except.ok ans)
    (hfresh : now2 - now < CACHE_EXPIRY) :
    fetchAIResponseCore (some cfg) (some ap) cache now text adapter
      = ⟨ans, mapSet cache (cacheKey text ap config.selectedModel) ⟨ans, now⟩, 1, none⟩
    ∧ fetchAIResponseCore (some cfg) (some ap)
        (mapSet cache (cacheKey text ap config.selectedModel) ⟨ans, now⟩) now2 text adapter2
      = ⟨ans, mapSet cache (cacheKey text ap config.selectedModel) ⟨ans, now⟩, 0, none⟩ := by
  have hhit : cacheLookup (mapSet cache (cacheKey text ap config.selectedModel) ⟨ans, now⟩)
      (cacheKey text ap config.selectedModel) now2 = some ans := by
    simp [cacheLookup, mapGet_mapSet_self, hfresh]
  constructor
  · simp [fetchAIResponseCore, hap, hcfg, hm, hk, hmiss, retryWithBackoff, retryGo, hok,
      MAX_RETRIES, INITIAL_RETRY_DELAY]
  · simp [fetchAIResponseCore, hap, hcfg, hm, hk, hhit]

/-- Witness for C5 on a concrete store, query and adapter; the second
adapter fails loudly, proving it is never consulted. -/
theorem dispatch_cache_roundtrip_witness :
    fetchAIResponseCore (some [("groq", ProviderConfig.mk "m1" "KEY")]) (some "groq")
        [] 1000 "hello" (fun _ => Except.ok "the answer")
      = ⟨"the answer", mapSet [] (cacheKey "hello" "groq" "m1") (CacheEntry.mk "the answer" 1000),
          1, none⟩
    ∧ fetchAIResponseCore (some [("groq", ProviderConfig.mk "m1" "KEY")]) (some "groq")
        (mapSet [] (cacheKey "hello" "groq" "m1") (CacheEntry.mk "the answer" 1000)) 2000 "hello"
        (fun _ => Except.error "must not be called")
      = ⟨"the answer", mapSet [] (cacheKey "hello" "groq" "m1") (CacheEntry.mk "the answer" 1000),
          0, none⟩ :=
  dispatch_cache_roundtrip [("groq", ProviderConfig.mk "m1" "KEY")] "groq"
    (ProviderConfig.mk "m1" "KEY") [] 1000 2000 "hello" "the answer"
    (fun _ => Except.ok "the answer") (fun _ => Except.error "must not be called")
    (by decide) rfl (by decide) (by decide) rfl rfl (by decide)

theorem error_marker_split (m : String) : "Error: " ++ m = "Error:" ++ (" " ++ m) := by
  apply String.ext
  simp [String.data_append]

/-- C7: every dispatch ending in a terminal error (configuration error,
or adapter failure after retry exhaustion) delivers the string
`"Error: " ++ m` built from the caught error's message `m` — a string
carrying the distinct `"Error:"` marker as its start, never a raw error
object or an unprefixed string. -/
theorem terminal_error_delivery (apiConfig : Option (List (String × ProviderConfig)))
    (activeProvider : Option String) (cache : Cache) (now : Nat) (text : String)
    (adapter : Nat → Except String String) (m : String)
    (hcaught : (fetchAIResponseCore apiConfig activeProvider cache now text adapter).caught
        = some m) :
    (fetchAIResponseCore apiConfig activeProvider cache now text adapter).sent
      = "Error: " ++ m
    ∧ (fetchAIResponseCore apiConfig activeProvider cache now text adapter).sent
      = "Error:" ++ (" " ++ m) := by
  have hsent : (fetchAIResponseCore apiConfig activeProvider cache now text adapter).sent
      = "Error: " ++ m := by
    rcases apiConfig with _ | cfg
    · simp [fetchAIResponseCore] at hcaught ⊢
      rw [← hcaught]
    · rcases activeProvider with _ | ap
      · simp [fetchAIResponseCore] at hcaught ⊢
        rw [← hcaught]
      · by_cases hap : ap = ""
        · simp [fetchAIResponseCore, hap] at hcaught ⊢
          rw [← hcaught]
        · cases hg : mapGet cfg ap with
          | none =>
            simp [fetchAIResponseCore, hap, hg] at hcaught ⊢
            rw [← hcaught]
          | some config =>
            by_cases hm1 : config.selectedModel = ""
            · simp [fetchAIResponseCore, hap, hg, hm1] at hcaught ⊢
              rw [← hcaught]
            · by_cases hk1 : config.apiKey = ""
              · simp [fetchAIResponseCore, hap, hg, hm1, hk1] at hcaught ⊢
                rw [← hcaught]
              · cases hc : cacheLookup cache (cacheKey text ap config.selectedModel) now with
                | some cached =>
                  simp [fetchAIResponseCore, hap, hg, hm1, hk1, hc] at hcaught
                | none =>
                  rcases hr : retryWithBackoff adapter MAX_RETRIES INITIAL_RETRY_DELAY
                    with ⟨res, attempts, sleeps⟩
                  cases res with
                  | ok rt =>
                    simp [fetchAIResponseCore, hap, hg, hm1, hk1, hc, hr] at hcaught
                  | error msg =>
                    simp [fetchAIResponseCore, hap, hg, hm1, hk1, hc, hr] at hcaught ⊢
                    rw [← hcaught]
  exact ⟨hsent, hsent.trans (error_marker_split m)⟩

/-- Witness for C7: an unconfigured store ends in a `ConfigError`-style
terminal error, delivered with the `"Error:"` marker. -/
theorem terminal_error_delivery_witness :
    (fetchAIResponseCore none none [] 0 "q" (fun _ => Except.error "x")).sent
      = "Error: " ++ notConfiguredMsg
    ∧ (fetchAIResponseCore none none [] 0 "q" (fun _ => Except.error "x")).sent
      = "Error:" ++ (" " ++ notConfiguredMsg) :=
  terminal_error_delivery none none [] 0 "q" (fun _ => Except.error "x")
    notConfiguredMsg rfl

/-- C6: a delivery whose sends keep failing while the tab exists is
attempted 1 + 3 = 4 times under the default `retries = 3`,
`delay = 500`, sleeping the strictly increasing delays 500, 750,
1125 ms between attempts, and then gives up silently (the function
returns a trace instead of throwing, leaving cache and fetch-retry
state untouched). -/
theorem delivery_retry_gives_up (tabExists sendOk : Nat → Bool)
    (hTab : ∀ n, tabExists n = true) (hFail : ∀ n, sendOk n = false) :
    sendResponseToContent tabExists sendOk 3 500 0 = ⟨4, [500, 750, 1125], true⟩
    ∧ List.Chain' (fun a b : ℚ => a < b)
        (sendResponseToContent tabExists sendOk 3 500 0).waits := by
  have heq : sendResponseToContent tabExists sendOk 3 500 0 = ⟨4, [500, 750, 1125], true⟩ := by
    simp [sendResponseToContent, hTab, hFail]
    norm_num
  refine ⟨heq, ?_⟩
  rw [heq]
  rw [List.chain'_cons, List.chain'_cons]
  exact ⟨by norm_num, by norm_num, List.chain'_singleton _⟩

/-- Witness for C6: the tab always exists and every send fails. -/
theorem delivery_retry_gives_up_witness :
    sendResponseToContent (fun _ => true) (fun _ => false) 3 500 0 = ⟨4, [500, 750, 1125], true⟩
    ∧ List.Chain' (fun a b : ℚ => a < b)
        (sendResponseToContent (fun _ => true) (fun _ => false) 3 500 0).waits :=
  delivery_retry_gives_up (fun _ => true) (fun _ => false) (fun _ => rfl) (fun _ => rfl)

/-- C10: when the tab lookup fails at the first attempt,
`sendResponseToContent` returns at once — no message is sent and no
delivery retry is consumed, whatever the `retries` parameter — and when
the tab exists and the very first send succeeds, no retry loop runs
either: the loop runs only when the tab exists but the send fails. -/
theorem delivery_tab_gone_immediate (tabExists sendOk : Nat → Bool)
    (retries : Nat) (delay : ℚ) :
    (tabExists 0 = false →
      sendResponseToContent tabExists sendOk retries delay 0 = ⟨0, [], false⟩)
    ∧ (tabExists 0 = true → sendOk 0 = true →
      sendResponseToContent tabExists sendOk retries delay 0 = ⟨1, [], false⟩) := by
  constructor
  · intro h
    cases retries <;> simp [sendResponseToContent, h]
  · intro h1 h2
    cases retries <;> simp [sendResponseToContent, h1, h2]

/-- Witness for C10: a vanished tab with a generous retry budget causes
an immediate silent return. -/
theorem delivery_tab_gone_immediate_witness :
    sendResponseToContent (fun _ => false) (fun _ => true) 7 500 0 = ⟨0, [], false⟩
    ∧ sendResponseToContent (fun _ => true) (fun _ => true) 7 500 0 = ⟨1, [], false⟩ :=
  ⟨(delivery_tab_gone_immediate (fun _ => false) (fun _ => true) 7 500).1 rfl,
   (delivery_tab_gone_immediate (fun _ => true) (fun _ => true) 7 500).2 rfl rfl⟩

/-- C8: for one query text and provider and two distinct models, the
cache keys differ, so an answer stored under the key for model `m1`
leaves lookups under the key for model `m2` absent (whenever that key
was not independently live in the cache). -/
theorem cache_key_model_sensitivity (c : Cache) (text p m1 m2 v : String) (ts now : Nat)
    (hne : m1 ≠ m2)
    (habsent : cacheLookup c (cacheKey text p m2) now = none) :
    cacheKey text p m1 ≠ cacheKey text p m2
    ∧ cacheLookup (mapSet c (cacheKey text p m1) ⟨v, ts⟩) (cacheKey text p m2) now = none := by
  have hk := @cacheKey_ne_of_model_ne text p m1 m2 hne
  refine ⟨hk, ?_⟩
  have hrw := mapGet_mapSet_ne c (cacheKey text p m1) (cacheKey text p m2)
    (⟨v, ts⟩ : CacheEntry) hk
  simpa [cacheLookup, hrw] using habsent

/-- Witness for C8: a fresh cache, one put under model `m1`, a miss
under model `m2`. -/
theorem cache_key_model_sensitivity_witness :
    cacheKey "t" "p" "m1" ≠ cacheKey "t" "p" "m2"
    ∧ cacheLookup (mapSet [] (cacheKey "t" "p" "m1") (CacheEntry.mk "v" 0))
        (cacheKey "t" "p" "m2") 0 = none :=
  cache_key_model_sensitivity [] "t" "p" "m1" "m2" "v" 0 0 (by decide) rfl

/-- C9: the cache key template is not injective: with provider "groq",
query "a-groq" under model "x" and query "a" under model "groq-x"
produce the same key string, and a dispatch of the second query
delivers — with zero adapter invocations — the cached answer that was
produced for the first query's different text and model. -/
theorem cache_key_collision :
    cacheKey "a-groq" "groq" "x" = cacheKey "a" "groq" "groq-x"
    ∧ ("a-groq" : String) ≠ "a"
    ∧ ("x" : String) ≠ "groq-x"
    ∧ fetchAIResponseCore (some [("groq", ProviderConfig.mk "groq-x" "KEY")]) (some "groq")
        (mapSet [] (cacheKey "a-groq" "groq" "x") (CacheEntry.mk "answer for a-groq" 0)) 0 "a"
        (fun _ => Except.error "network down")
      = ⟨"answer for a-groq",
          mapSet [] (cacheKey "a-groq" "groq" "x") (CacheEntry.mk "answer for a-groq" 0),
          0, none⟩ := by
  refine ⟨by decide, by decide, by decide, ?_⟩
  rfl
